import Mathlib

/-!
Shallow embedding of the balance-mutation and notification core of the
skylineltd repository (server/storage.ts, the server routes file and
shared/schema.ts).

Monetary columns are `decimal(12,2)` values with exact SQL decimal
arithmetic (addition, subtraction, comparison); they are embedded as
integers counting cents, which carries the identical additive and order
structure. The external asset price (`getCryptoPrice`) is likewise
embedded as an integer number of USD per unit; every price occurring in
the source's fallback table is a whole number.
-/

namespace Skyline

/-- Booking status enum (`bookingStatusEnum` in shared/schema.ts). -/
inductive BookingStatus
  | pending
  | confirmed
  | completed
  | cancelled
deriving DecidableEq, Repr

/-- Deposit status enum (`depositStatusEnum` in shared/schema.ts). -/
inductive DepositStatus
  | pending
  | approved
  | rejected
deriving DecidableEq, Repr

/-- User role enum (`userRoleEnum` in shared/schema.ts). -/
inductive Role
  | user
  | admin
deriving DecidableEq, Repr

/-- A row of the `users` table (the fields the wallet core touches). -/
structure User where
  id : String
  balanceUsd : Int
  role : Role
deriving DecidableEq, Repr

/-- A row of the `celebrities` table (the fields booking creation touches). -/
structure Celebrity where
  id : Nat
  name : String
  priceUsd : Int
deriving DecidableEq, Repr

/-- A row of the `bookings` table (the fields the wallet core touches). -/
structure Booking where
  id : Nat
  userId : String
  celebrityId : Nat
  priceUsd : Int
  status : BookingStatus
deriving DecidableEq, Repr

/-- A row of the `deposits` table (the fields the wallet core touches). -/
structure Deposit where
  id : Nat
  userId : String
  amountUsd : Int
  coin : String
  txHash : Option String
  status : DepositStatus
deriving DecidableEq, Repr

/-- The database state touched by the wallet core. `nextBookingId` models
the `generatedAlwaysAsIdentity` primary key of the bookings table. -/
structure DBState where
  users : List User
  celebrities : List Celebrity
  bookings : List Booking
  deposits : List Deposit
  nextBookingId : Nat
deriving DecidableEq, Repr

/-- Errors thrown or returned by the storage layer and handlers. -/
inductive StorageError
  | userNotFound
  | insufficientBalance
  | notFound
deriving DecidableEq, Repr

/-- Partial user data, as accepted by `DatabaseStorage.updateUser` (the
drizzle `Partial<User>` spread `set({ ...data })`): each present field
overwrites the stored row's field. -/
structure UserPatch where
  balanceUsd : Option Int := none
  role : Option Role := none
deriving DecidableEq, Repr

/-- Projection of `Except` results to the success state, used to chain
handler calls in concrete scenarios. -/
def okState : Except StorageError DBState → Option DBState
  | .ok st => some st
  | .error _ => none

/-- `storage.updateUser` (storage.ts): a blind field overwrite
`update(users).set({ ...data })` of whatever fields the caller supplies. -/
def updateUser (st : DBState) (id : String) (data : UserPatch) : DBState :=
  { st with
    users := st.users.map fun u =>
      if u.id == id then
        { u with
          balanceUsd := data.balanceUsd.getD u.balanceUsd
          role := data.role.getD u.role }
      else u }

/-- `storage.updateUserBalance` (storage.ts): the ledger's atomic adjust,
`set({ balanceUsd: sql(balanceUsd + amount) })` on the user's row. -/
def updateUserBalance (st : DBState) (id : String) (amount : Int) : DBState :=
  { st with
    users := st.users.map fun u =>
      if u.id == id then { u with balanceUsd := u.balanceUsd + amount } else u }

/-- Insert data for a booking (`InsertBooking` in shared/schema.ts). -/
structure InsertBooking where
  userId : String
  celebrityId : Nat
  priceUsd : Int
  status : BookingStatus
deriving DecidableEq, Repr

/-- `storage.createBookingWithBalanceDeduction` (storage.ts): one
transaction that selects the user's row `for("update")`, throws
`User not found` when the row is absent, throws
`Insufficient wallet balance` when the balance is below the price
(aborting with no writes), and otherwise debits the balance by the price
and inserts the booking row inside the same transaction. In this
embedding the all-or-nothing transaction shows up as the `Except` result:
an error carries no successor state, so the caller's state is untouched. -/
def createBookingWithBalanceDeduction (st : DBState) (userId : String)
    (data : InsertBooking) : Except StorageError (DBState × Booking) :=
  match st.users.find? (fun u => u.id == userId) with
  | none => .error .userNotFound
  | some user =>
    if user.balanceUsd < data.priceUsd then
      .error .insufficientBalance
    else
      let debited : DBState :=
        { st with
          users := st.users.map fun u =>
            if u.id == userId then
              { u with balanceUsd := u.balanceUsd - data.priceUsd }
            else u }
      let booking : Booking :=
        { id := st.nextBookingId
          userId := data.userId
          celebrityId := data.celebrityId
          priceUsd := data.priceUsd
          status := data.status }
      .ok ({ debited with
              bookings := debited.bookings ++ [booking]
              nextBookingId := st.nextBookingId + 1 }, booking)

/-- `storage.updateBookingStatus` (storage.ts): unconditionally writes the
requested status onto the booking's row. -/
def updateBookingStatus (st : DBState) (id : Nat) (status : BookingStatus) : DBState :=
  { st with
    bookings := st.bookings.map fun b =>
      if b.id == id then { b with status := status } else b }

/-- The `txHash` part of `storage.updateDepositStatus`: the stored hash is
replaced only when the caller supplies a truthy value (`if (txHash)
updateData.txHash = txHash`; the empty string is falsy). -/
def applyTxHash (old : Option String) (txHash : Option String) : Option String :=
  match txHash with
  | some h => if h == "" then old else some h
  | none => old

/-- `storage.updateDepositStatus` (storage.ts): unconditionally writes the
requested status onto the deposit's row, and the tx hash when truthy. -/
def updateDepositStatus (st : DBState) (id : Nat) (status : DepositStatus)
    (txHash : Option String) : DBState :=
  { st with
    deposits := st.deposits.map fun d =>
      if d.id == id then
        { d with status := status, txHash := applyTxHash d.txHash txHash }
      else d }

/-- The `POST /api/bookings` handler (routes): resolves the celebrity,
snapshots its current `priceUsd` into the insert data with status
`pending`, and delegates to `createBookingWithBalanceDeduction`. -/
def createBookingHandler (st : DBState) (userId : String) (celebrityId : Nat) :
    Except StorageError (DBState × Booking) :=
  match st.celebrities.find? (fun c => c.id == celebrityId) with
  | none => .error .notFound
  | some celebrity =>
    createBookingWithBalanceDeduction st userId
      { userId := userId
        celebrityId := celebrityId
        priceUsd := celebrity.priceUsd
        status := .pending }

/-- The `PATCH /api/bookings/:id/status` handler (routes): loads the
booking, writes the requested status unconditionally, and refunds the
stored snapshot price through `updateUserBalance` exactly when the
request sets `cancelled` and the loaded booking was still `pending`. -/
def bookingStatusHandler (st : DBState) (id : Nat) (status : BookingStatus) :
    Except StorageError DBState :=
  match st.bookings.find? (fun b => b.id == id) with
  | none => .error .notFound
  | some booking =>
    let afterStatus := updateBookingStatus st id status
    if status = .cancelled ∧ booking.status = .pending then
      .ok (updateUserBalance afterStatus booking.userId booking.priceUsd)
    else
      .ok afterStatus

/-- The `PATCH /api/deposits/:id/status` handler (routes): loads the
deposit, credits the ledger with the recorded `amountUsd` through
`updateUserBalance` exactly when the request sets `approved` and the
loaded deposit was still `pending`, then writes the requested status
unconditionally through `updateDepositStatus`. The credit and the status
write are two separate storage operations with no enclosing transaction. -/
def depositStatusHandler (st : DBState) (id : Nat) (status : DepositStatus)
    (txHash : Option String) : Except StorageError DBState :=
  match st.deposits.find? (fun d => d.id == id) with
  | none => .error .notFound
  | some deposit =>
    let afterCredit :=
      if status = .approved ∧ deposit.status = .pending then
        updateUserBalance st deposit.userId deposit.amountUsd
      else st
    .ok (updateDepositStatus afterCredit id status txHash)

/-- The `PATCH /api/admin/users/:id` handler (routes): passes the request
body straight to `storage.updateUser`. -/
def adminUpdateUserHandler (st : DBState) (id : String) (body : UserPatch) : DBState :=
  updateUser st id body

/-- The `PATCH /api/admin/users/:id/balance` handler (routes): applies the
caller-supplied delta through `storage.updateUserBalance`, with no
lower-bound check. -/
def adminBalanceHandler (st : DBState) (id : String) (amount : Int) : DBState :=
  updateUserBalance st id amount

/-- The two sequential storage writes the deposit-status handler performs
on the pending-to-approved path, in source order: first the ledger credit
(`updateUserBalance`), then the status persist (`updateDepositStatus`).
They are separate awaited database operations in the source. -/
def depositApproveWrites (dep : Deposit) (txHash : Option String) :
    List (DBState → DBState) :=
  [fun st => updateUserBalance st dep.userId dep.amountUsd,
   fun st => updateDepositStatus st dep.id .approved txHash]

/-- Runs an initial segment of a write sequence: the states reachable when
execution stops between two of the writes are exactly the `runWrites` of
the prefixes. -/
def runWrites (st : DBState) : List (DBState → DBState) → DBState
  | [] => st
  | f :: fs => runWrites (f st) fs

/-- `COINGECKO_IDS` (routes): the asset-symbol to coingecko-id table. -/
def COINGECKO_IDS (coin : String) : Option String :=
  if coin == "BTC" then some "bitcoin"
  else if coin == "ETH" then some "ethereum"
  else if coin == "USDT" then some "tether"
  else none

/-- Outcome of the external coingecko request for one asset: either the
fetch/json chain throws, or it completes with `data[coinId]?.usd`
(`none` when the response carries no usd figure for the asset). -/
inductive FetchOutcome
  | throws
  | completes (usd : Option Int)
deriving DecidableEq, Repr

/-- `getCryptoPrice` (routes): inside the `try`, an unknown symbol yields 1,
and a completed response yields `data[coinId]?.usd || 1` (so a missing or
zero usd figure yields 1); the per-asset static table (USDT 1, BTC 97000,
ETH 3400, otherwise 1) is consulted only in the `catch` branch, when the
request throws. -/
def getCryptoPrice (coin : String) (outcome : FetchOutcome) : Int :=
  match COINGECKO_IDS coin with
  | none => 1
  | some _ =>
    match outcome with
    | .completes usd =>
      match usd with
      | some v => if v == 0 then 1 else v
      | none => 1
    | .throws =>
      if coin == "USDT" then 1
      else if coin == "BTC" then 97000
      else if coin == "ETH" then 3400
      else 1

/-- Typed events the server pushes over a WebSocket. -/
inductive WsMsg
  | authSuccess
  | authError
  | eventPush
  | newMessage
deriving DecidableEq, Repr

/-- One WebSocket connection: `localUserId` is the per-connection `userId`
closure variable of the `wss.on("connection")` handler (set on successful
auth), `isOpen` models `readyState === WebSocket.OPEN`. -/
structure WsConn where
  connId : Nat
  localUserId : Option String
  isOpen : Bool
deriving DecidableEq, Repr

/-- The server's WebSocket state: `conns` is `wss.clients`, `wsClients` the
user-to-channel map, `wsAuthTokens` the handshake-token map
(token, userId, expiry), and `sent` the log of frames sent, as
(connection id, message) pairs in send order. -/
structure WsState where
  conns : List WsConn
  wsClients : List (String × Nat)
  wsAuthTokens : List (String × String × Nat)
  sent : List (Nat × WsMsg)
deriving DecidableEq, Repr

/-- `Map.set` semantics for the user-to-channel map. -/
def mapSet (m : List (String × Nat)) (k : String) (v : Nat) : List (String × Nat) :=
  (k, v) :: m.filter (fun p => p.1 != k)

/-- `Map.delete` semantics for the user-to-channel map. -/
def mapDelete (m : List (String × Nat)) (k : String) : List (String × Nat) :=
  m.filter (fun p => p.1 != k)

/-- `Map.get` semantics for the user-to-channel map. -/
def mapGet (m : List (String × Nat)) (k : String) : Option Nat :=
  (m.find? (fun p => p.1 == k)).map (·.2)

/-- The `auth` branch of the connection's `message` listener (routes): a
known, unexpired token binds the connection to the token's user (sets the
closure variable, registers the channel under the user — superseding any
prior one — consumes the token, and answers `auth_success`); otherwise
the server answers `auth_error` and registers nothing. -/
def handleAuthMessage (st : WsState) (connId : Nat) (token : String) (now : Nat) :
    WsState :=
  match st.wsAuthTokens.find? (fun t => t.1 == token) with
  | some (_, uid, expires) =>
    if now < expires then
      { st with
        conns := st.conns.map fun c =>
          if c.connId == connId then { c with localUserId := some uid } else c
        wsClients := mapSet st.wsClients uid connId
        wsAuthTokens := st.wsAuthTokens.filter (fun t => t.1 != token)
        sent := st.sent ++ [(connId, .authSuccess)] }
    else
      { st with sent := st.sent ++ [(connId, .authError)] }
  | none =>
    { st with sent := st.sent ++ [(connId, .authError)] }

/-- The connection's `close` listener (routes): if this connection's
closure variable holds a user id, delete that user's entry from the
channel map — whichever connection the entry currently points to — and
the socket leaves the open set. -/
def handleClose (st : WsState) (connId : Nat) : WsState :=
  match st.conns.find? (fun c => c.connId == connId) with
  | none => st
  | some c =>
    let cleared : WsState :=
      match c.localUserId with
      | some uid => { st with wsClients := mapDelete st.wsClients uid }
      | none => st
    { cleared with
      conns := cleared.conns.map fun cc =>
        if cc.connId == connId then { cc with isOpen := false } else cc }

/-- `broadcastToUser` (routes): the targeted push — looks the user up in
the channel map and sends only when a channel is registered and open. -/
def broadcastToUser (st : WsState) (userId : String) (msg : WsMsg) : WsState :=
  match mapGet st.wsClients userId with
  | none => st
  | some cid =>
    match st.conns.find? (fun c => c.connId == cid) with
    | none => st
    | some c =>
      if c.isOpen then { st with sent := st.sent ++ [(cid, msg)] } else st

/-- The push step of the `POST /api/messages` handler (routes): an admin
sender triggers a targeted `broadcastToUser` to the thread's owner; a
non-admin sender triggers `wss.clients.forEach`, sending `new_message` to
every open connection. -/
def messageSendPush (st : WsState) (senderIsAdmin : Bool)
    (targetUserId : Option String) : WsState :=
  if senderIsAdmin then
    match targetUserId with
    | some uid => broadcastToUser st uid .newMessage
    | none => st
  else
    { st with
      sent := st.sent ++
        (st.conns.filter (fun c => c.isOpen)).map (fun c => (c.connId, WsMsg.newMessage)) }

/-! ### Helper lemmas -/

/-- Updating the rows matching a key rewrites what a lookup for that key
finds, by the update function. -/
theorem find?_map_ite {α : Type} {κ : Type} [BEq κ] [LawfulBEq κ]
    (l : List α) (idOf : α → κ) (k : κ) (f : α → α)
    (hf : ∀ a, idOf (f a) = idOf a) :
    (l.map fun a => if idOf a == k then f a else a).find? (fun a => idOf a == k)
      = (l.find? (fun a => idOf a == k)).map f := by
  induction l with
  | nil => rfl
  | cons hd tl ih =>
    by_cases h : idOf hd = k
    · have hb : (idOf hd == k) = true := beq_iff_eq.mpr h
      simp [List.find?, hb, hf, h]
    · have hb : (idOf hd == k) = false := beq_eq_false_iff_ne.mpr h
      simp [List.find?, hb, ih]

/-- Projection of `Except` results to the success pair of the
booking-creation path. -/
def okPair : Except StorageError (DBState × Booking) → Option (DBState × Booking)
  | .ok p => some p
  | .error _ => none

/-- A successful run of the booking-creation handler has exactly the
debited-and-inserted successor state. -/
theorem createBookingHandler_ok_elim (st : DBState) (userId : String)
    (celebrityId : Nat) (celebrity : Celebrity) (user : User)
    (stNew : DBState) (booking : Booking)
    (hc : st.celebrities.find? (fun c => c.id == celebrityId) = some celebrity)
    (hu : st.users.find? (fun u => u.id == userId) = some user)
    (hok : createBookingHandler st userId celebrityId = .ok (stNew, booking)) :
    ¬ user.balanceUsd < celebrity.priceUsd ∧
    booking = { id := st.nextBookingId, userId := userId,
                celebrityId := celebrityId, priceUsd := celebrity.priceUsd,
                status := .pending } ∧
    stNew =
      { st with
        users := st.users.map fun u =>
          if u.id == userId then
            { u with balanceUsd := u.balanceUsd - celebrity.priceUsd }
          else u
        bookings := st.bookings ++
          [{ id := st.nextBookingId, userId := userId,
             celebrityId := celebrityId, priceUsd := celebrity.priceUsd,
             status := .pending }]
        nextBookingId := st.nextBookingId + 1 } := by
  simp only [createBookingHandler, hc, createBookingWithBalanceDeduction, hu] at hok
  by_cases hlt : user.balanceUsd < celebrity.priceUsd
  · rw [if_pos hlt] at hok
    exact absurd hok (by simp)
  · rw [if_neg hlt] at hok
    simp only [Except.ok.injEq, Prod.mk.injEq] at hok
    obtain ⟨h1, h2⟩ := hok
    exact ⟨hlt, h2.symm, h1.symm⟩

/-- After a `Map.delete`, a `Map.get` of the deleted key yields nothing. -/
theorem mapGet_mapDelete_self (m : List (String × Nat)) (k : String) :
    mapGet (mapDelete m k) k = none := by
  unfold mapGet mapDelete
  rw [Option.map_eq_none']
  rw [List.find?_eq_none]
  intro p hp
  have hne := (List.mem_filter.mp hp).2
  simp only [bne_iff_ne, ne_eq] at hne
  simp [hne]

/-! ### Example fixtures -/

/-- A user with a 10-unit balance. -/
def exUserI : User := { id := "u1", balanceUsd := 10, role := .user }

/-- A celebrity offering priced at 80. -/
def exCelebI : Celebrity := { id := 5, name := "Star", priceUsd := 80 }

/-- A state in which user `u1` cannot afford celebrity 5. -/
def exStI : DBState :=
  { users := [exUserI], celebrities := [exCelebI], bookings := [],
    deposits := [], nextBookingId := 1 }

/-! ### Claim theorems -/

/-- **C1**: booking creation is one all-or-nothing operation over the
user's row: it compares the current balance to the offering's price; if
the balance is below the price it fails with the insufficient-balance
error and produces no successor state (balance and bookings untouched);
every successful run debits the balance by exactly the offering's price
and appends the booking row in the same successor state; and a
sufficient balance always succeeds. -/
theorem booking_creation_atomic (st : DBState) (userId : String)
    (celebrityId : Nat) (celebrity : Celebrity) (user : User)
    (hc : st.celebrities.find? (fun c => c.id == celebrityId) = some celebrity)
    (hu : st.users.find? (fun u => u.id == userId) = some user) :
    (user.balanceUsd < celebrity.priceUsd →
      createBookingHandler st userId celebrityId = .error .insufficientBalance) ∧
    (∀ stNew booking,
      createBookingHandler st userId celebrityId = .ok (stNew, booking) →
      booking.priceUsd = celebrity.priceUsd ∧
      (stNew.users.find? (fun u => u.id == userId)).map User.balanceUsd
        = some (user.balanceUsd - celebrity.priceUsd) ∧
      stNew.bookings = st.bookings ++ [booking] ∧
      stNew.deposits = st.deposits) ∧
    (¬ user.balanceUsd < celebrity.priceUsd →
      (okPair (createBookingHandler st userId celebrityId)).isSome = true) := by
  refine ⟨?_, ?_, ?_⟩
  · intro hlt
    simp [createBookingHandler, hc, createBookingWithBalanceDeduction, hu, hlt]
  · intro stNew booking hok
    obtain ⟨hlt, hbk, hst⟩ :=
      createBookingHandler_ok_elim st userId celebrityId celebrity user
        stNew booking hc hu hok
    subst hbk
    subst hst
    refine ⟨rfl, ?_, rfl, rfl⟩
    have hmap := find?_map_ite st.users User.id userId
      (fun u => { u with balanceUsd := u.balanceUsd - celebrity.priceUsd })
      (fun a => rfl)
    rw [hmap, hu]
    rfl
  · intro hlt
    simp [createBookingHandler, hc, createBookingWithBalanceDeduction, hu,
      hlt, okPair]

/-- Witness for **C1** at a concrete insufficient-balance input: user `u1`
holds 10 and celebrity 5 costs 80, so booking creation fails with the
insufficient-balance error. -/
theorem booking_creation_atomic_witness :
    createBookingHandler exStI "u1" 5 = .error .insufficientBalance :=
  (booking_creation_atomic exStI "u1" 5 exCelebI exUserI (by decide)
    (by decide)).1 (by decide)

/-- A pending deposit of 50 for user `u1`. -/
def exDepD : Deposit :=
  { id := 1, userId := "u1", amountUsd := 50, coin := "BTC",
    txHash := none, status := .pending }

/-- A state with user `u1` at balance 10 and pending deposit 1. -/
def exStD : DBState :=
  { users := [exUserI], celebrities := [], bookings := [],
    deposits := [exDepD], nextBookingId := 1 }

/-- **C2**: the deposit-approval credit fires only when the deposit's
current status is pending, so approving a deposit twice credits the
user's ledger exactly once: the first approval adds the recorded amount,
and the second approval of the now-approved deposit performs no ledger
mutation at all. -/
theorem deposit_approval_idempotent (st st1 st2 : DBState) (id : Nat)
    (dep : Deposit) (user : User) (tx1 tx2 : Option String)
    (hd : st.deposits.find? (fun d => d.id == id) = some dep)
    (hpend : dep.status = .pending)
    (hu : st.users.find? (fun u => u.id == dep.userId) = some user)
    (h1 : depositStatusHandler st id .approved tx1 = .ok st1)
    (h2 : depositStatusHandler st1 id .approved tx2 = .ok st2) :
    (st1.users.find? (fun u => u.id == dep.userId)).map User.balanceUsd
      = some (user.balanceUsd + dep.amountUsd) ∧
    st2.users = st1.users := by
  simp only [depositStatusHandler, hd] at h1
  rw [if_pos ⟨trivial, hpend⟩] at h1
  simp only [Except.ok.injEq] at h1
  subst h1
  constructor
  · simp only [updateDepositStatus, updateUserBalance]
    rw [find?_map_ite st.users User.id dep.userId
      (fun u => { u with balanceUsd := u.balanceUsd + dep.amountUsd })
      (fun a => rfl), hu]
    rfl
  · have hd1 : (updateDepositStatus (updateUserBalance st dep.userId
        dep.amountUsd) id .approved tx1).deposits.find? (fun d => d.id == id)
        = some { dep with
            status := .approved
            txHash := applyTxHash dep.txHash tx1 } := by
      simp only [updateDepositStatus, updateUserBalance]
      rw [find?_map_ite st.deposits Deposit.id id
        (fun d => { d with
          status := .approved
          txHash := applyTxHash d.txHash tx1 })
        (fun a => rfl), hd]
      rfl
    simp [depositStatusHandler, hd1] at h2
    subst h2
    rfl

/-- Witness for **C2**: approving pending deposit 1 (amount 50) twice in
state `exStD` leaves `u1` at 60 after the first approval, and the second
approval does not change the user table. -/
theorem deposit_approval_idempotent_witness :
    ((updateDepositStatus (updateUserBalance exStD "u1" 50) 1 .approved
        none).users.find? (fun u => u.id == "u1")).map User.balanceUsd
      = some 60 ∧
    (updateDepositStatus (updateDepositStatus (updateUserBalance exStD "u1" 50)
        1 .approved none) 1 .approved none).users
      = (updateDepositStatus (updateUserBalance exStD "u1" 50) 1 .approved
          none).users :=
  deposit_approval_idempotent exStD
    (updateDepositStatus (updateUserBalance exStD "u1" 50) 1 .approved none)
    (updateDepositStatus (updateDepositStatus (updateUserBalance exStD "u1" 50)
      1 .approved none) 1 .approved none)
    1 exDepD exUserI none none (by decide) rfl (by decide) rfl rfl

/-- An already-approved deposit of 50 for user `u1`. -/
def exDepA : Deposit :=
  { id := 1, userId := "u1", amountUsd := 50, coin := "BTC",
    txHash := none, status := .approved }

/-- A state with user `u1` and approved deposit 1. -/
def exStA : DBState :=
  { users := [exUserI], celebrities := [], bookings := [],
    deposits := [exDepA], nextBookingId := 1 }

/-- Counterexample to **C3** as stated: deposit 1 is already in the
terminal status approved, yet a later request setting rejected changes
its stored status again — the handler overwrites the status
unconditionally. -/
theorem deposit_terminal_status_overwritten :
    (exStA.deposits.find? (fun d => d.id == 1)).map Deposit.status
      = some .approved ∧
    ((okState (depositStatusHandler exStA 1 .rejected none)).bind fun s =>
      (s.deposits.find? (fun d => d.id == 1)).map Deposit.status)
      = some .rejected := by
  decide

/-- **C3 (amended)**: every deposit-status request that finds the deposit
overwrites its stored status with the requested value — so a terminal
(approved or rejected) status can be changed by a later request — while
the ledger is left untouched by any request that finds the deposit in a
non-pending status. -/
theorem deposit_status_write_unconditional (st st1 : DBState) (id : Nat)
    (status : DepositStatus) (tx : Option String) (dep : Deposit)
    (hd : st.deposits.find? (fun d => d.id == id) = some dep)
    (h1 : depositStatusHandler st id status tx = .ok st1) :
    (st1.deposits.find? (fun d => d.id == id)).map Deposit.status
      = some status ∧
    (dep.status ≠ .pending → st1.users = st.users) := by
  simp only [depositStatusHandler, hd] at h1
  simp only [Except.ok.injEq] at h1
  subst h1
  constructor
  · have hdeps : (if status = DepositStatus.approved ∧
        dep.status = DepositStatus.pending then
          updateUserBalance st dep.userId dep.amountUsd
        else st).deposits = st.deposits := by
      split <;> rfl
    simp only [updateDepositStatus, hdeps]
    rw [find?_map_ite st.deposits Deposit.id id
      (fun d => { d with status := status, txHash := applyTxHash d.txHash tx })
      (fun a => rfl), hd]
    rfl
  · intro hnp
    have hcond : ¬ (status = DepositStatus.approved ∧
        dep.status = DepositStatus.pending) := fun hc => hnp hc.2
    simp only [updateDepositStatus]
    rw [if_neg hcond]

/-- Witness for **C3 (amended)** at the concrete input of the
counterexample: rejecting the already-approved deposit 1 stores the
rejected status. -/
theorem deposit_status_write_unconditional_witness :
    ((updateDepositStatus exStA 1 .rejected none).deposits.find?
        (fun d => d.id == 1)).map Deposit.status = some .rejected :=
  (deposit_status_write_unconditional exStA
    (updateDepositStatus exStA 1 .rejected none) 1 .rejected none exDepA
    (by decide) rfl).1

/-- Counterexample to **C4** as stated: the admin user-update endpoint
passes its request body to `updateUser`, which overwrites the stored
balance with the caller-supplied absolute value — user `u1` holds 10 and
ends at exactly 999 regardless of the prior value. -/
theorem admin_update_overwrites_balance :
    (exStI.users.find? (fun u => u.id == "u1")).map User.balanceUsd
      = some 10 ∧
    ((adminUpdateUserHandler exStI "u1"
        { balanceUsd := some 999, role := none }).users.find?
        (fun u => u.id == "u1")).map User.balanceUsd = some 999 := by
  decide

/-- **C4 (amended)**: the ledger's adjust operation `updateUserBalance`
(used by the booking, deposit-approval, refund and admin balance-adjust
paths) mutates a balance only by adding the delta to the stored value;
but the admin user-update endpoint applies the request body through
`updateUser`, which overwrites the balance with a caller-supplied
absolute value whenever the body carries one. -/
theorem balance_adjust_and_overwrite (st : DBState) (id : String)
    (amount v : Int) (user : User)
    (hu : st.users.find? (fun u => u.id == id) = some user) :
    ((updateUserBalance st id amount).users.find? (fun u => u.id == id)).map
        User.balanceUsd = some (user.balanceUsd + amount) ∧
    ((adminUpdateUserHandler st id { balanceUsd := some v, role := none
        }).users.find? (fun u => u.id == id)).map User.balanceUsd
      = some v := by
  constructor
  · simp only [updateUserBalance]
    rw [find?_map_ite st.users User.id id
      (fun u => { u with balanceUsd := u.balanceUsd + amount })
      (fun a => rfl), hu]
    rfl
  · simp only [adminUpdateUserHandler, updateUser, Option.getD_some,
      Option.getD_none]
    rw [find?_map_ite st.users User.id id
      (fun u => { u with balanceUsd := v, role := u.role })
      (fun a => rfl), hu]
    rfl

/-- Witness for **C4 (amended)**: at state `exStI`, adjusting by 5 yields
15 for `u1`, and the user-update endpoint with an absolute 999 yields
exactly 999. -/
theorem balance_adjust_and_overwrite_witness :
    ((updateUserBalance exStI "u1" 5).users.find? (fun u => u.id == "u1")).map
        User.balanceUsd = some 15 ∧
    ((adminUpdateUserHandler exStI "u1" { balanceUsd := some 999, role := none
        }).users.find? (fun u => u.id == "u1")).map User.balanceUsd
      = some 999 :=
  balance_adjust_and_overwrite exStI "u1" 5 999 exUserI (by decide)

/-- Counterexample to **C5** as stated: the approve path of the
deposit-status handler is exactly the sequence of its two storage writes
(credit, then status persist), and the state after only the first write —
an outcome of any interruption between the two non-transactional
operations — has the credit applied (`u1` at 60) while deposit 1 is
still stored as pending, not approved. -/
theorem deposit_approval_not_atomic :
    depositStatusHandler exStD 1 .approved none
      = .ok (runWrites exStD (depositApproveWrites exDepD none)) ∧
    ((runWrites exStD ((depositApproveWrites exDepD none).take 1)).users.find?
        (fun u => u.id == "u1")).map User.balanceUsd = some 60 ∧
    ((runWrites exStD ((depositApproveWrites exDepD none).take 1)).deposits.find?
        (fun d => d.id == 1)).map Deposit.status = some .pending := by
  refine ⟨rfl, by decide, by decide⟩

/-- **C5 (amended)**: on the pending-to-approved transition the handler
performs the ledger credit and the status persist as two separate
sequential storage writes with no enclosing transaction: running both
writes gives the handler's result, with the credit applied and the
status approved; but the intermediate state after the credit write alone
still stores the deposit as pending, so an interruption between the two
writes leaves the credit applied without the approved status. -/
theorem deposit_approval_two_writes (st : DBState) (id : Nat)
    (dep : Deposit) (user : User) (tx : Option String)
    (hd : st.deposits.find? (fun d => d.id == id) = some dep)
    (hpend : dep.status = .pending)
    (hu : st.users.find? (fun u => u.id == dep.userId) = some user) :
    depositStatusHandler st id .approved tx
      = .ok (runWrites st (depositApproveWrites dep tx)) ∧
    ((runWrites st (depositApproveWrites dep tx)).users.find?
        (fun u => u.id == dep.userId)).map User.balanceUsd
      = some (user.balanceUsd + dep.amountUsd) ∧
    ((runWrites st (depositApproveWrites dep tx)).deposits.find?
        (fun d => d.id == id)).map Deposit.status = some .approved ∧
    ((runWrites st ((depositApproveWrites dep tx).take 1)).users.find?
        (fun u => u.id == dep.userId)).map User.balanceUsd
      = some (user.balanceUsd + dep.amountUsd) ∧
    ((runWrites st ((depositApproveWrites dep tx).take 1)).deposits.find?
        (fun d => d.id == id)).map Deposit.status = some .pending := by
  have hid : dep.id = id := by
    have := List.find?_some hd
    exact beq_iff_eq.mp this
  subst hid
  refine ⟨?_, ?_, ?_, ?_, ?_⟩
  · simp only [depositStatusHandler, hd, depositApproveWrites, runWrites]
    rw [if_pos ⟨trivial, hpend⟩]
  · simp only [depositApproveWrites, runWrites, updateDepositStatus,
      updateUserBalance]
    rw [find?_map_ite st.users User.id dep.userId
      (fun u => { u with balanceUsd := u.balanceUsd + dep.amountUsd })
      (fun a => rfl), hu]
    rfl
  · simp only [depositApproveWrites, runWrites, updateDepositStatus,
      updateUserBalance]
    rw [find?_map_ite st.deposits Deposit.id dep.id
      (fun d => { d with status := .approved, txHash := applyTxHash d.txHash tx })
      (fun a => rfl), hd]
    rfl
  · simp only [depositApproveWrites, List.take, runWrites, updateUserBalance]
    rw [find?_map_ite st.users User.id dep.userId
      (fun u => { u with balanceUsd := u.balanceUsd + dep.amountUsd })
      (fun a => rfl), hu]
    rfl
  · simp only [depositApproveWrites, List.take, runWrites, updateUserBalance]
    rw [hd]
    simp [hpend]

/-- Witness for **C5 (amended)** at the concrete state of the
counterexample: the approve run of pending deposit 1 equals its two-write
sequence. -/
theorem deposit_approval_two_writes_witness :
    depositStatusHandler exStD 1 .approved none
      = .ok (runWrites exStD (depositApproveWrites exDepD none)) :=
  (deposit_approval_two_writes exStD 1 exDepD exUserI none (by decide) rfl
    (by decide)).1

/-- Counterexample to **C6** as stated: the admin balance-adjustment
endpoint applies its delta with no lower-bound check, so adjusting user
`u1` (balance 10) by -30 drives the stored balance to -20, a negative
reachable balance. -/
theorem admin_adjust_drives_balance_negative :
    (exStI.users.find? (fun u => u.id == "u1")).map User.balanceUsd
      = some 10 ∧
    ((adminBalanceHandler exStI "u1" (-30)).users.find?
        (fun u => u.id == "u1")).map User.balanceUsd = some (-20) := by
  decide

/-- A user with a 100-unit balance. -/
def exUserH : User := { id := "u2", balanceUsd := 100, role := .user }

/-- A state in which user `u2` can afford celebrity 5. -/
def exStH : DBState :=
  { users := [exUserH], celebrities := [exCelebI], bookings := [],
    deposits := [], nextBookingId := 1 }

/-- **C6 (amended)**: the booking debit cannot drive a balance below zero
— every successful booking creation leaves the debited user at exactly
the old balance minus the booked price, and that post-debit balance is
non-negative because the sufficiency check guards the debit — whereas
the admin balance adjustment carries no such floor and can produce a
negative balance (see the counterexample). -/
theorem booking_debit_keeps_balance_nonneg (st stNew : DBState)
    (userId : String) (celebrityId : Nat) (celebrity : Celebrity)
    (user : User) (booking : Booking)
    (hc : st.celebrities.find? (fun c => c.id == celebrityId) = some celebrity)
    (hu : st.users.find? (fun u => u.id == userId) = some user)
    (hok : createBookingHandler st userId celebrityId = .ok (stNew, booking)) :
    (stNew.users.find? (fun u => u.id == userId)).map User.balanceUsd
      = some (user.balanceUsd - booking.priceUsd) ∧
    0 ≤ user.balanceUsd - booking.priceUsd := by
  obtain ⟨hlt, hbk, hst⟩ :=
    createBookingHandler_ok_elim st userId celebrityId celebrity user
      stNew booking hc hu hok
  subst hbk
  subst hst
  constructor
  · rw [find?_map_ite st.users User.id userId
      (fun u => { u with balanceUsd := u.balanceUsd - celebrity.priceUsd })
      (fun a => rfl), hu]
    rfl
  · exact sub_nonneg.mpr (not_lt.mp hlt)

/-- Witness for **C6 (amended)**: user `u2` (balance 100) books celebrity
5 (price 80); the success leaves a non-negative post-debit balance. -/
theorem booking_debit_keeps_balance_nonneg_witness :
    (0 : Int) ≤ exUserH.balanceUsd - (80 : Int) :=
  (booking_debit_keeps_balance_nonneg exStH _ "u2" 5 exCelebI exUserH _
    (by decide) (by decide) rfl).2

/-- Counterexample to **C7** as stated: when the live lookup for BTC
succeeds but carries no usd figure ("returns no data"), the price
function returns 1, not the static BTC fallback 97000. -/
theorem crypto_price_no_data_not_fallback :
    getCryptoPrice "BTC" (.completes none) = 1 ∧
    getCryptoPrice "BTC" (.completes none) ≠ 97000 := by
  decide

/-- **C7 (amended)**: the static per-asset fallback (BTC 97000, ETH 3400,
USDT 1) is returned only when the live lookup throws; when the lookup
completes but carries no usd figure — or a zero figure — the function
returns 1 for every supported asset, and a completed non-zero figure is
returned as-is. -/
theorem crypto_price_fallback_only_on_throw :
    getCryptoPrice "BTC" .throws = 97000 ∧
    getCryptoPrice "ETH" .throws = 3400 ∧
    getCryptoPrice "USDT" .throws = 1 ∧
    getCryptoPrice "BTC" (.completes none) = 1 ∧
    getCryptoPrice "ETH" (.completes none) = 1 ∧
    getCryptoPrice "USDT" (.completes none) = 1 ∧
    getCryptoPrice "BTC" (.completes (some 0)) = 1 ∧
    getCryptoPrice "BTC" (.completes (some 95000)) = 95000 := by
  decide

/-- A user with a zero balance. -/
def exUserC : User := { id := "u3", balanceUsd := 0, role := .user }

/-- A pending booking of snapshot price 50 for user `u3`. -/
def exBkC : Booking :=
  { id := 1, userId := "u3", celebrityId := 5, priceUsd := 50,
    status := .pending }

/-- A state with user `u3` at balance 0 and pending booking 1. -/
def exStC : DBState :=
  { users := [exUserC], celebrities := [], bookings := [exBkC],
    deposits := [], nextBookingId := 2 }

/-- Counterexample to **C8** as stated: because the status-update endpoint
also accepts resetting a cancelled booking to pending, the sequence
cancel, re-pend, cancel on pending booking 1 (price 50, user balance 0)
credits the user twice, ending at 100 — the refund fires more than once
for the same booking. -/
theorem booking_refund_fires_twice :
    (exStC.users.find? (fun u => u.id == "u3")).map User.balanceUsd
      = some 0 ∧
    (exStC.bookings.find? (fun b => b.id == 1)).map Booking.priceUsd
      = some 50 ∧
    ((okState (bookingStatusHandler exStC 1 .cancelled)).bind fun s1 =>
      (okState (bookingStatusHandler s1 1 .pending)).bind fun s2 =>
        (okState (bookingStatusHandler s2 1 .cancelled)).bind fun s3 =>
          (s3.users.find? (fun u => u.id == "u3")).map User.balanceUsd)
      = some 100 := by
  decide

/-- **C8 (amended)**: on each status-update request the ledger is credited
back by exactly the booking's stored snapshot price iff the request sets
cancelled and the booking's prior status was pending; any other request
(including cancelling an already-cancelled or non-pending booking)
performs no ledger mutation. The refund fires at most once per
pending-to-cancelled edge, but not at most once per booking, since the
endpoint also allows resetting a cancelled booking to pending (see the
counterexample). -/
theorem booking_refund_on_cancel_edge (st st1 : DBState) (id : Nat)
    (status : BookingStatus) (booking : Booking) (user : User)
    (hb : st.bookings.find? (fun b => b.id == id) = some booking)
    (hu : st.users.find? (fun u => u.id == booking.userId) = some user)
    (h1 : bookingStatusHandler st id status = .ok st1) :
    ((status = .cancelled ∧ booking.status = .pending) →
      (st1.users.find? (fun u => u.id == booking.userId)).map User.balanceUsd
        = some (user.balanceUsd + booking.priceUsd)) ∧
    (¬ (status = .cancelled ∧ booking.status = .pending) →
      st1.users = st.users) := by
  simp only [bookingStatusHandler, hb] at h1
  constructor
  · intro hcond
    rw [if_pos hcond] at h1
    simp only [Except.ok.injEq] at h1
    subst h1
    simp only [updateUserBalance, updateBookingStatus]
    rw [find?_map_ite st.users User.id booking.userId
      (fun u => { u with balanceUsd := u.balanceUsd + booking.priceUsd })
      (fun a => rfl), hu]
    rfl
  · intro hcond
    rw [if_neg hcond] at h1
    simp only [Except.ok.injEq] at h1
    subst h1
    rfl

/-- Witness for **C8 (amended)**: cancelling the pending booking 1 in
state `exStC` credits user `u3` by exactly the stored price 50. -/
theorem booking_refund_on_cancel_edge_witness :
    ((updateUserBalance (updateBookingStatus exStC 1 .cancelled) "u3"
        50).users.find? (fun u => u.id == "u3")).map User.balanceUsd
      = some 50 :=
  (booking_refund_on_cancel_edge exStC
    (updateUserBalance (updateBookingStatus exStC 1 .cancelled) "u3" 50)
    1 .cancelled exBkC exUserC (by decide) (by decide) rfl).1 ⟨rfl, rfl⟩

/-- An open connection that never completed token authentication. -/
def exConnE : WsConn := { connId := 7, localUserId := none, isOpen := true }

/-- A WebSocket state with only the unauthenticated connection 7. -/
def exWsE : WsState :=
  { conns := [exConnE], wsClients := [], wsAuthTokens := [], sent := [] }

/-- Counterexample to **C9** as stated: connection 7 never authenticated
(its closure user id is unset and it is registered for no user), yet the
non-admin branch of the message-send path broadcasts `new_message` to it. -/
theorem unauthenticated_conn_receives_broadcast :
    exConnE.localUserId = none ∧
    exWsE.wsClients = [] ∧
    (messageSendPush exWsE false none).sent = [(7, WsMsg.newMessage)] := by
  decide

/-- **C9 (amended)**: the targeted push primitive sends only to the
connection currently registered for the target user in the authenticated
channel map — so unauthenticated connections receive no targeted pushes —
whereas the non-admin branch of the message-send path is a distinct
broadcast-to-all primitive that reaches every open connection,
authenticated or not (see the counterexample). -/
theorem targeted_push_only_to_registered (st : WsState) (userId : String)
    (msg : WsMsg) (cid : Nat) (m : WsMsg)
    (hmem : (cid, m) ∈ (broadcastToUser st userId msg).sent) :
    (cid, m) ∈ st.sent ∨
    (mapGet st.wsClients userId = some cid ∧ m = msg) := by
  unfold broadcastToUser at hmem
  cases hg : mapGet st.wsClients userId with
  | none =>
    rw [hg] at hmem
    exact .inl hmem
  | some c =>
    simp only [hg] at hmem
    cases hf : st.conns.find? (fun x => x.connId == c) with
    | none =>
      simp only [hf] at hmem
      exact .inl hmem
    | some conn =>
      simp only [hf] at hmem
      by_cases ho : conn.isOpen = true
      · rw [if_pos ho] at hmem
        rcases List.mem_append.mp hmem with h | h
        · exact .inl h
        · have hpair := List.mem_singleton.mp h
          injection hpair with h1 h2
          subst h1
          subst h2
          exact .inr ⟨rfl, rfl⟩
      · rw [if_neg ho] at hmem
        exact .inl hmem

/-- An open connection authenticated as user `u9`. -/
def exConnF : WsConn := { connId := 3, localUserId := some "u9", isOpen := true }

/-- A WebSocket state with `u9` registered on connection 3. -/
def exWsF : WsState :=
  { conns := [exConnF], wsClients := [("u9", 3)], wsAuthTokens := [],
    sent := [] }

/-- Witness for **C9 (amended)**: a targeted push delivered to connection 3
is accounted for by the registration of `u9` on that connection. -/
theorem targeted_push_only_to_registered_witness :
    (3, WsMsg.eventPush) ∈ exWsF.sent ∨
    (mapGet exWsF.wsClients "u9" = some 3 ∧
      WsMsg.eventPush = WsMsg.eventPush) :=
  targeted_push_only_to_registered exWsF "u9" .eventPush 3 .eventPush
    (by decide)

/-- **C10**: when connection `a` is authenticated for a user whose
registered channel has been superseded by a different connection, closing
`a` still deletes the user's entry from the channel map entirely, leaving
the user with no registered channel, and every subsequent targeted push
for that user is dropped (the state is unchanged) until a new channel
authenticates. -/
theorem superseded_close_drops_user_channel (st : WsState) (a : WsConn)
    (uid : String) (bId : Nat) (msg : WsMsg)
    (hfind : st.conns.find? (fun c => c.connId == a.connId) = some a)
    (hauth : a.localUserId = some uid)
    (_hsup : mapGet st.wsClients uid = some bId)
    (_hne : bId ≠ a.connId) :
    mapGet (handleClose st a.connId).wsClients uid = none ∧
    broadcastToUser (handleClose st a.connId) uid msg
      = handleClose st a.connId := by
  have hw : (handleClose st a.connId).wsClients = mapDelete st.wsClients uid := by
    simp only [handleClose, hfind, hauth]
  have hnone : mapGet (handleClose st a.connId).wsClients uid = none := by
    rw [hw]
    exact mapGet_mapDelete_self _ _
  refine ⟨hnone, ?_⟩
  unfold broadcastToUser
  rw [hnone]

/-- Two fresh open connections and two live tokens for user `u1`. -/
def exWsG0 : WsState :=
  { conns := [{ connId := 1, localUserId := none, isOpen := true },
              { connId := 2, localUserId := none, isOpen := true }],
    wsClients := [],
    wsAuthTokens := [("t1", "u1", 100), ("t2", "u1", 100)],
    sent := [] }

/-- The state after connection 1 authenticates as `u1` and connection 2
then authenticates as `u1`, superseding connection 1's registration. -/
def exWsG : WsState :=
  handleAuthMessage (handleAuthMessage exWsG0 1 "t1" 0) 2 "t2" 0

/-- Witness for **C10**: in the superseded two-connection state, closing
connection 1 removes `u1` from the channel map and a subsequent targeted
push to `u1` is dropped. -/
theorem superseded_close_drops_user_channel_witness :
    mapGet (handleClose exWsG 1).wsClients "u1" = none ∧
    broadcastToUser (handleClose exWsG 1) "u1" WsMsg.eventPush
      = handleClose exWsG 1 :=
  superseded_close_drops_user_channel exWsG
    { connId := 1, localUserId := some "u1", isOpen := true } "u1" 2
    .eventPush (by decide) rfl (by decide) (by decide)

end Skyline

